import Mathlib

/-!
Shallow embedding of the damm-v2-launchpad-bot core pipeline:

* `MigrationMonitor` (src/src/monitors/migration-monitor.ts): dedup window,
  mint extraction, sweep timer lifecycle.
* `MigrationTracker` (candidate registry, src/unnamed/part_010): token set with
  per-token expiry timeouts.
* `PoolCriteriaChecker` (src/src/services/pool-criteria-checker.ts): the four
  pool criteria and the fee-schedule check.
* `DammLiquidityService.addLiquidity` error classification
  (src/src/services/damm-liquidity-service.ts).
* `DammPoolMonitor` (src/unnamed/part_011): the reconciliation loop's tick
  scheduling and the per-(token, pool) processing sequence, modelled as atomic
  segments split at the code's await points, with interleaving semantics for
  the single-threaded event loop.

JavaScript numbers appearing only in order comparisons are modelled as `Int`
(or `Nat` for counts and times in ms); `undefined`/`null` fields as `Option`;
a thrown exception as `Except.error`.
-/

namespace DammBot

/-! ## Migration monitor: dedup window (migration-monitor.ts lines 145-167) -/

/-- Wrapped-SOL mint, `WSOL_MINT` in the source. -/
def WSOL_MINT : String := "So11111111111111111111111111111111111111112"

/-- System-program native SOL mint, `SOL_MINT` in pool-criteria-checker.ts. -/
def SOL_MINT : String := "11111111111111111111111111111111"

/-- The `seenSigs` / `seenMints` maps: key to expiry time in ms. -/
def DedupMap : Type := String → Option Nat

/-- Empty dedup map. -/
def emptyDedup : DedupMap := fun _ => none

/-- `markSig(sig, now)`: `this.seenSigs.set(sig, now + this.ttlMs)`. -/
def markSig (ttlMs : Nat) (sig : String) (now : Nat) (m : DedupMap) : DedupMap :=
  fun k => if k = sig then some (now + ttlMs) else m k

/-- `isSigSeen(sig)`: `exp` present and `exp > Date.now()`. -/
def isSigSeen (sig : String) (now : Nat) (m : DedupMap) : Bool :=
  match m sig with
  | some exp => decide (now < exp)
  | none => false

/-- `markMint(mint, now)`: `this.seenMints.set(mint, now + this.ttlMs)`. -/
def markMint (ttlMs : Nat) (mint : String) (now : Nat) (m : DedupMap) : DedupMap :=
  fun k => if k = mint then some (now + ttlMs) else m k

/-- `isMintSeen(mint)`: `exp` present and `exp > Date.now()`. -/
def isMintSeen (mint : String) (now : Nat) (m : DedupMap) : Bool :=
  match m mint with
  | some exp => decide (now < exp)
  | none => false

/-! ## Migration monitor: mint extraction (migration-monitor.ts lines 106-143) -/

/-- One entry of `tx.meta.postTokenBalances`; `uiAmount` is `none` for a JSON
`null` amount, and a `Rat` otherwise (it is a UI-scaled decimal in the source). -/
structure TokenBalance where
  mint : String
  uiAmount : Option Rat
deriving DecidableEq

/-- The fields of a fetched transaction that `extractMintFromTransaction` reads:
`tx.meta.postTokenBalances`, `none` when `meta` or the balance list is missing. -/
structure TxData where
  postTokenBalances : Option (List TokenBalance)

/-- The filter predicate of `extractMintFromTransaction`:
`balance.mint !== WSOL && balance.uiTokenAmount.uiAmount !== null &&
balance.uiTokenAmount.uiAmount > 0`. -/
def migratedBalanceFilter (b : TokenBalance) : Bool :=
  decide (b.mint ≠ WSOL_MINT) &&
    (match b.uiAmount with
     | some a => decide (0 < a)
     | none => false)

/-- `MigrationMonitor.extractMintFromTransaction`, applied to the fetched
transaction (`none` models a failed fetch or a thrown parse error, both of
which the source maps to `undefined`). Filters `postTokenBalances` and returns
the mint of entry `[0]` of the filtered list, or `undefined` if it is empty. -/
def extractMintFromTransaction (tx : Option TxData) : Option String :=
  match tx with
  | none => none
  | some t =>
    match t.postTokenBalances with
    | none => none
    | some postBalances =>
      let migratedTokens := postBalances.filter migratedBalanceFilter
      match migratedTokens with
      | [] => none
      | b :: _ => some b.mint

/-! ## Migration monitor: sweeper lifecycle (migration-monitor.ts lines 35-104, 163-167) -/

/-- Sweep interval: `Math.min(Math.max(this.ttlMs / 3, 5_000), 60_000)`. -/
def sweepIntervalMs (ttlMs : Nat) : Nat := min (max (ttlMs / 3) 5000) 60000

/-- `sweep()`: deletes every entry whose expiry is `<= now` from a dedup map,
here shown on the map's entry list. -/
def sweep (now : Nat) (entries : List (String × Nat)) : List (String × Nat) :=
  entries.filter (fun e => decide (now < e.2))

/-- Timer/subscription state of a `MigrationMonitor` instance:
`sweeperActive` is whether the `setInterval` installed for `this.sweeper` in
the constructor is still scheduled, `subscribed` whether `logsSubId` holds a
live log subscription. -/
structure MonitorLifecycle where
  sweeperActive : Bool
  subscribed : Bool
deriving DecidableEq

/-- The constructor: installs the sweeper interval; no subscription yet. -/
def constructMonitor : MonitorLifecycle :=
  { sweeperActive := true, subscribed := false }

/-- `stop()`: removes the log listener (if any) and runs
`clearInterval(this.sweeper)` unconditionally. -/
def monitorStop (_m : MonitorLifecycle) : MonitorLifecycle :=
  { sweeperActive := false, subscribed := false }

/-- `start()`: first `await this.stop()`, then `conn.onLogs(...)`. The
`sweeper` field is `readonly`, set only in the constructor, and `start` never
re-installs the interval that its `stop()` call cleared. -/
def monitorStart (m : MonitorLifecycle) : MonitorLifecycle :=
  let m1 := monitorStop m
  { m1 with subscribed := true }

/-! ## Candidate registry: `MigrationTracker` (src/unnamed/part_010 lines 1-61)

Timers are modelled explicitly: `setTimeout` appends a `ScheduledTimeout` with
a fresh id to the pending list and `clearTimeout` removes it; a timer that has
been removed from the pending list can never fire. -/

/-- A scheduled `setTimeout` callback of `MigrationTracker.addToken`. -/
structure ScheduledTimeout where
  id : Nat
  token : String
  fireAt : Nat
deriving DecidableEq

/-- State of a `MigrationTracker` plus its outstanding timers. -/
structure TrackerState where
  migratedTokens : List String
  expirationTimeouts : List (String × Nat)
  pendingTimers : List ScheduledTimeout
  nextId : Nat
deriving DecidableEq

/-- Fresh tracker (`new MigrationTracker()`). -/
def initialTracker : TrackerState :=
  { migratedTokens := [], expirationTimeouts := [], pendingTimers := [], nextId := 0 }

/-- `Map.get` on the `expirationTimeouts` map. -/
def lookupTimeout : List (String × Nat) → String → Option Nat
  | [], _ => none
  | (k, v) :: rest, t => if k = t then some v else lookupTimeout rest t

/-- `Map.delete` on the `expirationTimeouts` map. -/
def deleteTimeoutKey : List (String × Nat) → String → List (String × Nat)
  | [], _ => []
  | (k, v) :: rest, t => if k = t then rest else (k, v) :: deleteTimeoutKey rest t

/-- `Map.set` on the `expirationTimeouts` map. -/
def setTimeoutKey : List (String × Nat) → String → Nat → List (String × Nat)
  | [], t, v => [(t, v)]
  | (k, w) :: rest, t, v => if k = t then (t, v) :: rest else (k, w) :: setTimeoutKey rest t v

/-- JS `Set.add`: inserts at the end if absent. -/
def setAdd (l : List String) (t : String) : List String :=
  if t ∈ l then l else l ++ [t]

/-- `MigrationTracker.clearExpirationTimeout`: looks up the stored timeout id,
cancels that timer (`clearTimeout`) and deletes the map entry. -/
def clearExpirationTimeout (s : TrackerState) (tokenMint : String) : TrackerState :=
  match lookupTimeout s.expirationTimeouts tokenMint with
  | some tid =>
    { s with
      pendingTimers := s.pendingTimers.filter (fun sch => decide (sch.id ≠ tid))
      expirationTimeouts := deleteTimeoutKey s.expirationTimeouts tokenMint }
  | none => s

/-- `MigrationTracker.addToken(tokenMint, expirationMs)` at wall time `now`:
clears any existing timeout for the token, adds the token to the set, schedules
a new expiry timeout at `now + expirationMs` and records its id. -/
def addToken (s : TrackerState) (tokenMint : String) (expirationMs : Nat) (now : Nat) :
    TrackerState :=
  let s1 := clearExpirationTimeout s tokenMint
  let s2 := { s1 with migratedTokens := setAdd s1.migratedTokens tokenMint }
  { s2 with
    pendingTimers :=
      s2.pendingTimers ++ [{ id := s2.nextId, token := tokenMint, fireAt := now + expirationMs }]
    expirationTimeouts := setTimeoutKey s2.expirationTimeouts tokenMint s2.nextId
    nextId := s2.nextId + 1 }

/-- `MigrationTracker.removeToken`: deletes from the set and clears the timeout. -/
def removeToken (s : TrackerState) (tokenMint : String) : TrackerState :=
  clearExpirationTimeout { s with migratedTokens := s.migratedTokens.erase tokenMint } tokenMint

/-- `MigrationTracker.hasToken`. -/
def hasToken (s : TrackerState) (tokenMint : String) : Bool :=
  decide (tokenMint ∈ s.migratedTokens)

/-- Firing of the timer with id `tid`: a no-op if that timer was cancelled
(absent from the pending list); otherwise the timer is consumed and its
callback removes the token if it is still present. -/
def fireTimeout (s : TrackerState) (tid : Nat) : TrackerState :=
  match s.pendingTimers.find? (fun sch => decide (sch.id = tid)) with
  | none => s
  | some sch =>
    let s1 := { s with pendingTimers := s.pendingTimers.filter (fun x => decide (x.id ≠ tid)) }
    if sch.token ∈ s1.migratedTokens then removeToken s1 sch.token else s1

/-! ## Pool criteria checker (pool-criteria-checker.ts) -/

/-- `pool.poolFees.baseFee`. Fields that the source may find `undefined` are
`Option`; integral on-chain numbers are `Int`. -/
structure BaseFee where
  feeSchedulerMode : Option Int
  numberOfPeriod : Option Int
  periodFrequency : Option Int
  reductionFactor : Option Int
  cliffFeeNumerator : Option Int
deriving DecidableEq

/-- `pool.poolFees`. -/
structure PoolFees where
  baseFee : Option BaseFee
deriving DecidableEq

/-- The decoded pool-state fields that `PoolCriteriaChecker` reads. `base_fee`
is the optional percent figure the source reads as `Number(pool.base_fee)`. -/
structure PoolState where
  tokenAMint : String
  tokenBMint : String
  poolFees : Option PoolFees
  collectFeeMode : Option Int
  base_fee : Option Int
deriving DecidableEq

/-- The `try` body of `PoolCriteriaChecker.checkQuoteTokenOnlyFees`.
`Except.error ()` models the thrown `TypeError` from calling `.toString()` on
an `undefined` `reductionFactor`/`cliffFeeNumerator` in the fallback heuristic
branch. The heuristic comparison `reductionFactorNum < cliffFeeNum / 10` uses
JS float division, rendered exactly as `10 * rf < cf`. -/
def checkQuoteTokenOnlyFeesBody (pool : PoolState) : Except Unit Bool :=
  match pool.poolFees with
  | none => Except.ok true
  | some fees =>
    match fees.baseFee with
    | none => Except.ok true
    | some bf =>
      let hasScheduler : Bool :=
        match bf.numberOfPeriod with
        | some n => decide (0 < n)
        | none => false
      let hasQuoteTokenOnlyFees : Bool :=
        match pool.collectFeeMode with
        | some m => decide (m = 1)
        | none =>
          match bf.feeSchedulerMode with
          | some m => decide (m = 1)
          | none => false
      match
        (if hasScheduler then
          match pool.base_fee with
          | some baseFeePercent => Except.ok (decide (baseFeePercent ≤ 20))
          | none =>
            match bf.reductionFactor, bf.cliffFeeNumerator with
            | some rf, some cf =>
              if 10 * rf < cf then Except.ok true
              else if 1000 < rf then Except.ok false
              else Except.ok false
            | _, _ => (Except.error () : Except Unit Bool)
        else Except.ok false) with
      | Except.error e => Except.error e
      | Except.ok isLinearScheduler =>
        Except.ok (hasScheduler && hasQuoteTokenOnlyFees && isLinearScheduler)

/-- `PoolCriteriaChecker.checkQuoteTokenOnlyFees`: the catch-all handler maps a
thrown evaluation to `true` ("assuming acceptable structure"). -/
def checkQuoteTokenOnlyFees (pool : PoolState) : Bool :=
  match checkQuoteTokenOnlyFeesBody pool with
  | Except.ok b => b
  | Except.error _ => true

/-- `PoolCriteriaChecker.checkFeesInQuoteToken`: the source body is a stub
returning `true`. -/
def checkFeesInQuoteToken (_pool : PoolState) (_quoteTokenMint : String) : Bool :=
  true

/-- The `PoolCriteria` record returned by `checkPoolCriteria`. -/
structure PoolCriteria where
  hasWSOL : Bool
  hasSOL : Bool
  hasMigratedToken : Bool
  feesInQuoteToken : Bool
  hasLinearSchedule : Bool
deriving DecidableEq

/-- `PoolCriteriaChecker.checkPoolCriteria`. -/
def checkPoolCriteria (pool : PoolState) (migratedTokenMint : String) : PoolCriteria :=
  let tokenA := pool.tokenAMint
  let tokenB := pool.tokenBMint
  let hasWSOL := decide (tokenA = WSOL_MINT) || decide (tokenB = WSOL_MINT)
  let hasSOL := decide (tokenA = SOL_MINT) || decide (tokenB = SOL_MINT)
  let hasMigratedToken :=
    decide (tokenA = migratedTokenMint) || decide (tokenB = migratedTokenMint)
  let quoteToken := if hasWSOL then WSOL_MINT else SOL_MINT
  let feesInQuoteToken := checkFeesInQuoteToken pool quoteToken
  let hasQuoteTokenOnlyFees := checkQuoteTokenOnlyFees pool
  { hasWSOL := hasWSOL
    hasSOL := hasSOL
    hasMigratedToken := hasMigratedToken
    feesInQuoteToken := feesInQuoteToken
    hasLinearSchedule := hasQuoteTokenOnlyFees }

/-- `PoolCriteriaChecker.meetsAllCriteria`:
`(hasWSOL || hasSOL) && (hasMigratedToken && feesInQuoteToken && hasLinearSchedule)`. -/
def meetsAllCriteria (pool : PoolState) (migratedTokenMint : String) : Bool :=
  let criteria := checkPoolCriteria pool migratedTokenMint
  let allMet := criteria.hasWSOL || criteria.hasSOL
  let allMet2 := criteria.hasMigratedToken && criteria.feesInQuoteToken &&
    criteria.hasLinearSchedule
  allMet && allMet2

/-! ## Liquidity service error classification (damm-liquidity-service.ts lines 245-318) -/

/-- The `LiquidityResult` record of damm-liquidity-service.ts. -/
structure LiquidityResult where
  success : Bool
  transactionSignature : Option String := none
  error : Option String := none
  positionAddress : Option String := none
  warning : Option String := none
deriving DecidableEq

/-- The catch block of `DammLiquidityService.addLiquidity`. `customMatch` is
the outcome of testing `error.transactionMessage` for `Custom:` and matching it
against the instruction-error pattern: `some (instructionNumber, errorCode)` on
a match, `none` otherwise (no transaction message, no `Custom:`, or no match).
With a match, `instructionNumber >= 4` is reported as a success with a warning;
otherwise the result is a failure carrying the error message. -/
def classifyAddLiquidityError (errorMessage : String) (customMatch : Option (Nat × Nat)) :
    LiquidityResult :=
  let isActuallySuccess : Bool :=
    match customMatch with
    | some (instructionNumber, _errorCode) => decide (4 ≤ instructionNumber)
    | none => false
  if isActuallySuccess then
    { success := true
      transactionSignature := some "SUCCESS_DESPITE_ERROR"
      positionAddress := some "POSITION_LIKELY_CREATED"
      warning :=
        some "Transaction succeeded but reported error code. Position creation instruction completed." }
  else
    { success := false, error := some errorMessage }

/-! ## Reconciliation loop tick scheduling (src/unnamed/part_011 lines 83-119, 222-228)

`startMonitoringLoop` installs `setInterval(async () => { if (this.isRunning)
await this.checkPools(); }, this.checkIntervalMs)`. The callback's only guard
is `isRunning`, the flag set by `start()` and cleared by `stop()`; a
`checkPools` call that is still awaiting when the interval fires again does not
prevent the callback from starting another one. -/

/-- Tick-scheduling state: `isRunning` plus the number of `checkPools` calls
started and not yet resolved. -/
structure LoopState where
  isRunning : Bool
  inFlight : Nat
deriving DecidableEq

/-- Events of the tick scheduler: the interval callback firing, or an in-flight
`checkPools` resolving. -/
inductive LoopEvent
  | timerFire
  | tickDone
deriving DecidableEq

/-- One scheduler event. `timerFire` starts a new `checkPools` whenever
`isRunning` holds, regardless of `inFlight`; `tickDone` retires one. -/
def loopStep (s : LoopState) : LoopEvent → LoopState
  | LoopEvent.timerFire => if s.isRunning then { s with inFlight := s.inFlight + 1 } else s
  | LoopEvent.tickDone => { s with inFlight := s.inFlight - 1 }

/-- Run a sequence of scheduler events. -/
def loopRun : List LoopEvent → LoopState → LoopState
  | [], s => s
  | e :: rest, s => loopRun rest (loopStep s e)

/-- The state right after `start()`: running, no tick in flight. -/
def startedLoop : LoopState := { isRunning := true, inFlight := 0 }

/-! ## Per-(token, pool) processing sequence (src/unnamed/part_011 lines 254-340)

`checkTokenForPools` processing of one candidate pool whose criteria evaluate
true, split into the atomic segments between its await points:

* `start`: the synchronous guard block — skip if the tokenPoolKey is already in
  `processedTokenPoolPairs` or the pool in `seenPools` — ending at
  `await this.cpAmm.fetchPoolState(pubkey)`;
* `fetched`: the fetch resolved; ends at
  `await this.criteriaChecker.meetsAllCriteria(pool, tokenCA)`;
* `evaluated`: criteria returned true; the key and pool are added to the
  processed/seen sets in this synchronous block, which ends at the awaited
  Discord notification;
* `marked`: the notification settled; `executeTokenPurchase` is invoked
  (counted in `purchases`), then the rest of the sequence runs.

Two concurrent invocations for the same key (`A` from one reconciliation tick,
`B` from an overlapping one) share the two sets and interleave at these
boundaries; a schedule is any order of the two processes' segments. -/

/-- Program counter of one `checkTokenForPools` invocation for the key. -/
inductive OrchPc
  | start
  | fetched
  | evaluated
  | marked
  | done
  | skipped
deriving DecidableEq

/-- Which invocation runs the next atomic segment. -/
inductive Proc
  | A
  | B
deriving DecidableEq

/-- Shared sets (restricted to the one key and pool at issue), the purchase
count, and both invocations' program counters. -/
structure OrchGlobal where
  processed : Bool
  seen : Bool
  purchases : Nat
  pcA : OrchPc
  pcB : OrchPc
deriving DecidableEq

/-- Advance one invocation by one atomic segment against the shared state. -/
def orchSegment (processed seen : Bool) (purchases : Nat) (pc : OrchPc) :
    Bool × Bool × Nat × OrchPc :=
  match pc with
  | OrchPc.start =>
    if processed || seen then (processed, seen, purchases, OrchPc.skipped)
    else (processed, seen, purchases, OrchPc.fetched)
  | OrchPc.fetched => (processed, seen, purchases, OrchPc.evaluated)
  | OrchPc.evaluated => (true, true, purchases, OrchPc.marked)
  | OrchPc.marked => (processed, seen, purchases + 1, OrchPc.done)
  | OrchPc.done => (processed, seen, purchases, OrchPc.done)
  | OrchPc.skipped => (processed, seen, purchases, OrchPc.skipped)

/-- One scheduler step: run the chosen invocation's next segment. -/
def orchStep (g : OrchGlobal) : Proc → OrchGlobal
  | Proc.A =>
    let r := orchSegment g.processed g.seen g.purchases g.pcA
    { processed := r.1, seen := r.2.1, purchases := r.2.2.1, pcA := r.2.2.2, pcB := g.pcB }
  | Proc.B =>
    let r := orchSegment g.processed g.seen g.purchases g.pcB
    { processed := r.1, seen := r.2.1, purchases := r.2.2.1, pcA := g.pcA, pcB := r.2.2.2 }

/-- Run a schedule (interleaving) of the two invocations. -/
def orchRun : List Proc → OrchGlobal → OrchGlobal
  | [], g => g
  | p :: rest, g => orchRun rest (orchStep g p)

/-- Initial state: key unprocessed, pool unseen, both invocations at the guard. -/
def orchInit : OrchGlobal :=
  { processed := false, seen := false, purchases := 0, pcA := OrchPc.start, pcB := OrchPc.start }

/-! ## Post-match pipeline (src/unnamed/part_011 lines 136-162, 297-331)

`executeTokenPurchase` wraps its whole body — the wallet-balance check and
`jupiterService.executeSwap`, which itself throws after exhausting its 3
attempts — in `try/catch`; the catch only logs. The caller's post-match block
then runs the liquidity step (when enabled) and finally
`migrationTracker.removeToken`. -/

/-- Observable pipeline state after the post-match sequence for a matched
(token, pool) pair. -/
structure PipelineOutcome where
  keyProcessed : Bool
  liquidityAttempted : Bool
  tokenRemoved : Bool
  purchaseErrorPropagated : Bool
deriving DecidableEq

/-- `executeTokenPurchase`: the inner body either succeeds with a signature or
throws (`Except.error`, covering wallet-check failures and `executeSwap`
failing after all retries); the catch swallows every error, so the wrapper
always returns normally. -/
def executeTokenPurchase (inner : Except String String) : Except String Unit :=
  match inner with
  | Except.ok _ => Except.ok ()
  | Except.error _ => Except.ok ()

/-- The post-match sequence of `checkTokenForPools` after the key was marked
processed: run the purchase wrapper; only if it returned normally, run the
liquidity step when `addLiquidity` is set (a throw would be caught by the inner
catch and skip liquidity); then remove the token from the registry. -/
def postMatchSequence (addLiquidity : Bool) (inner : Except String String) : PipelineOutcome :=
  match executeTokenPurchase inner with
  | Except.ok _ =>
    { keyProcessed := true
      liquidityAttempted := addLiquidity
      tokenRemoved := true
      purchaseErrorPropagated := false }
  | Except.error _ =>
    { keyProcessed := true
      liquidityAttempted := false
      tokenRemoved := true
      purchaseErrorPropagated := false }

/-! ## Concrete pool states used in the scenarios -/

/-- A target-token mint for the scenarios. -/
def scenarioTokenT1 : String := "T1token1111111111111111111111111111111111111"

/-- Base fee record of the Scenario B pool: a scheduler with many periods and
a small reduction factor. -/
def scenarioLinearBaseFee : BaseFee :=
  { feeSchedulerMode := some 0
    numberOfPeriod := some 10
    periodFrequency := some 60
    reductionFactor := some 10
    cliffFeeNumerator := some 10000 }

/-- Scenario B pool: WSOL plus the target token, quote-only fee collection
(`collectFeeMode = 1`), a fee scheduler (`numberOfPeriod > 0`) and a low base
fee, which the source classifies as a linear schedule. -/
def scenarioLinearPool : PoolState :=
  { tokenAMint := WSOL_MINT
    tokenBMint := scenarioTokenT1
    poolFees := some { baseFee := some scenarioLinearBaseFee }
    collectFeeMode := some 1
    base_fee := some 5 }

/-- The same pool but with a high base fee, which the source classifies as an
exponential schedule. -/
def scenarioExponentialPool : PoolState :=
  { scenarioLinearPool with base_fee := some 30 }

/-- A pool whose decoded state carries no fee data at all. -/
def missingFeeDataPool : PoolState :=
  { tokenAMint := WSOL_MINT
    tokenBMint := scenarioTokenT1
    poolFees := none
    collectFeeMode := none
    base_fee := none }

/-- A pool whose heuristic fallback classification is ambiguous: no `base_fee`
figure, and a reduction factor neither small against the cliff fee nor above
1000. -/
def ambiguousHeuristicBaseFee : BaseFee :=
  { feeSchedulerMode := some 1
    numberOfPeriod := some 10
    periodFrequency := some 60
    reductionFactor := some 500
    cliffFeeNumerator := some 600 }

/-- Pool carrying `ambiguousHeuristicBaseFee`, with no `base_fee` figure. -/
def ambiguousHeuristicPool : PoolState :=
  { tokenAMint := WSOL_MINT
    tokenBMint := scenarioTokenT1
    poolFees := some { baseFee := some ambiguousHeuristicBaseFee }
    collectFeeMode := some 1
    base_fee := none }

/-- A pool on which the fee-schedule evaluation throws: a scheduler is present,
`base_fee` is absent and `reductionFactor` is `undefined`, so the fallback
heuristic calls `.toString()` on `undefined`. -/
def throwingBaseFee : BaseFee :=
  { feeSchedulerMode := some 1
    numberOfPeriod := some 10
    periodFrequency := some 60
    reductionFactor := none
    cliffFeeNumerator := none }

/-- Pool carrying `throwingBaseFee`, with no `base_fee` figure. -/
def throwingPool : PoolState :=
  { tokenAMint := WSOL_MINT
    tokenBMint := scenarioTokenT1
    poolFees := some { baseFee := some throwingBaseFee }
    collectFeeMode := some 1
    base_fee := none }

/-- Invariant used for the processing-sequence model: an invocation that has
reached its purchase-issuing segment, or any state with a purchase already
counted, has the key marked processed. -/
def OrchInv (g : OrchGlobal) : Prop :=
  (g.pcA = OrchPc.marked → g.processed = true) ∧
  (g.pcB = OrchPc.marked → g.processed = true) ∧
  (1 ≤ g.purchases → g.processed = true)

/-!
# Theorems
-/

/-- Helper: the head of a filtered list is the first element satisfying the
filter. -/
theorem head?_filter_eq_find? {α : Type} (p : α → Bool) (l : List α) :
    (l.filter p).head? = l.find? p := by
  induction l with
  | nil => rfl
  | cons a t ih =>
    by_cases h : p a = true
    · simp [List.filter_cons, List.find?_cons, h]
    · simp [List.filter_cons, List.find?_cons, h, ih]

/-- C8: a key marked in the dedup window at time `T` with window `ttlMs` is
seen at exactly the query times strictly before `T + ttlMs`, and not seen at or
after `T + ttlMs`; in particular, with the default 120000 ms window, a key
marked at 0 is seen at `ttlMs - 1` and not seen at `ttlMs + 1`. -/
theorem dedup_window_boundary :
    (∀ (ttlMs : Nat) (sig : String) (T q : Nat) (m : DedupMap),
      isSigSeen sig q (markSig ttlMs sig T m) = decide (q < T + ttlMs)) ∧
    (∀ (ttlMs : Nat) (mint : String) (T q : Nat) (m : DedupMap),
      isMintSeen mint q (markMint ttlMs mint T m) = decide (q < T + ttlMs)) ∧
    isSigSeen "sig1" (120000 - 1) (markSig 120000 "sig1" 0 emptyDedup) = true ∧
    isSigSeen "sig1" 120000 (markSig 120000 "sig1" 0 emptyDedup) = false ∧
    isSigSeen "sig1" (120000 + 1) (markSig 120000 "sig1" 0 emptyDedup) = false ∧
    isMintSeen "mint1" (120000 - 1) (markMint 120000 "mint1" 0 emptyDedup) = true ∧
    isMintSeen "mint1" (120000 + 1) (markMint 120000 "mint1" 0 emptyDedup) = false := by
  refine ⟨?_, ?_, ?_, ?_, ?_, ?_, ?_⟩
  · intro ttl sig T q m
    simp [isSigSeen, markSig]
  · intro ttl mint T q m
    simp [isMintSeen, markMint]
  · simp [isSigSeen, markSig]
  · simp [isSigSeen, markSig]
  · simp [isSigSeen, markSig]
  · simp [isMintSeen, markMint]
  · simp [isMintSeen, markMint]

/-- C7: mint extraction returns the first post-balance entry whose mint is not
the wrapped-native mint and whose amount is positive; a transaction with
exactly one qualifying entry yields that mint, and one with no qualifying
entry yields no event. -/
theorem extractMint_first_qualifying :
    (∀ (t : TxData) (l : List TokenBalance), t.postTokenBalances = some l →
      extractMintFromTransaction (some t) =
        (l.find? migratedBalanceFilter).map TokenBalance.mint) ∧
    (∀ (t : TxData) (l : List TokenBalance) (b : TokenBalance),
      t.postTokenBalances = some l → l.filter migratedBalanceFilter = [b] →
      extractMintFromTransaction (some t) = some b.mint) ∧
    (∀ (t : TxData) (l : List TokenBalance), t.postTokenBalances = some l →
      l.filter migratedBalanceFilter = [] →
      extractMintFromTransaction (some t) = none) := by
  have key : ∀ (t : TxData) (l : List TokenBalance), t.postTokenBalances = some l →
      extractMintFromTransaction (some t) =
        (l.filter migratedBalanceFilter).head?.map TokenBalance.mint := by
    intro t l h
    obtain ⟨pb⟩ := t
    simp only at h
    subst h
    simp only [extractMintFromTransaction]
    cases l.filter migratedBalanceFilter with
    | nil => rfl
    | cons b rest => rfl
  refine ⟨?_, ?_, ?_⟩
  · intro t l h
    rw [key t l h, head?_filter_eq_find?]
  · intro t l b h hf
    rw [key t l h, hf]
    rfl
  · intro t l h hf
    rw [key t l h, hf]
    rfl

/-- C7 witness: a transaction with exactly one qualifying post-balance yields
that mint. -/
theorem extractMint_first_qualifying_witness :
    extractMintFromTransaction
      (some { postTokenBalances := some [{ mint := "M1", uiAmount := some 5 }] }) =
      some "M1" :=
  extractMint_first_qualifying.2.1
    { postTokenBalances := some [{ mint := "M1", uiAmount := some 5 }] }
    [{ mint := "M1", uiAmount := some 5 }]
    { mint := "M1", uiAmount := some 5 }
    rfl (by decide)

/-- C4: an addLiquidity error carrying a parsed custom program error is
classified success-with-warning exactly when the instruction index is at least
4 (success true, warning set, no error field), and a hard failure when the
index is below 4 (success false, error set, no warning). -/
theorem addLiquidity_error_classification :
    ∀ (msg : String) (idx code : Nat),
      (classifyAddLiquidityError msg (some (idx, code))).success = decide (4 ≤ idx) ∧
      (classifyAddLiquidityError msg (some (idx, code))).warning.isSome = decide (4 ≤ idx) ∧
      (4 ≤ idx → classifyAddLiquidityError msg (some (idx, code)) =
        { success := true
          transactionSignature := some "SUCCESS_DESPITE_ERROR"
          positionAddress := some "POSITION_LIKELY_CREATED"
          warning := some "Transaction succeeded but reported error code. Position creation instruction completed." }) ∧
      (idx < 4 → classifyAddLiquidityError msg (some (idx, code)) =
        { success := false, error := some msg }) := by
  intro msg idx code
  by_cases h : 4 ≤ idx
  · refine ⟨?_, ?_, fun _ => ?_, fun hlt => absurd h (by omega)⟩ <;>
      simp [classifyAddLiquidityError, h]
  · refine ⟨?_, ?_, fun hge => absurd hge h, fun _ => ?_⟩ <;>
      simp [classifyAddLiquidityError, h]

/-- C4 witness: instruction index 5 gives success-with-warning, index 2 a hard
failure. -/
theorem addLiquidity_error_classification_witness :
    (classifyAddLiquidityError "boom" (some (5, 1))).success = true ∧
    (classifyAddLiquidityError "boom" (some (5, 1))).warning.isSome = true ∧
    (classifyAddLiquidityError "boom" (some (2, 1))).success = false ∧
    (classifyAddLiquidityError "boom" (some (2, 1))).error = some "boom" := by
  have h5 := (addLiquidity_error_classification "boom" 5 1).2.2.1 (by omega)
  have h2 := (addLiquidity_error_classification "boom" 2 1).2.2.2 (by omega)
  rw [h5, h2]
  refine ⟨rfl, rfl, rfl, rfl⟩

/-- C10: a failing purchase (any inner error, including exhausted swap retries)
is swallowed by the purchase wrapper; the post-match sequence still attempts
liquidity when enabled, still removes the token, keeps the key processed, and
its outcome is identical to that of a successful purchase. -/
theorem purchase_failure_indistinguishable :
    ∀ (addLiq : Bool) (inner : Except String String),
      executeTokenPurchase inner = Except.ok () ∧
      postMatchSequence addLiq inner =
        { keyProcessed := true
          liquidityAttempted := addLiq
          tokenRemoved := true
          purchaseErrorPropagated := false } ∧
      postMatchSequence addLiq inner = postMatchSequence addLiq (Except.ok "sig") := by
  intro addLiq inner
  cases inner <;> simp [executeTokenPurchase, postMatchSequence]

/-- C9 at the failing input: the constructor installs the sweeper, but
`start()` (which first awaits `stop()`) leaves the monitor subscribed with the
sweeper interval cleared and never re-installed; the interval length itself is
`ttl/3` clamped to `[5s, 60s]` and a sweep retains exactly the unexpired
entries. -/
theorem sweeper_cleared_by_start :
    constructMonitor.sweeperActive = true ∧
    (monitorStart constructMonitor).subscribed = true ∧
    (monitorStart constructMonitor).sweeperActive = false ∧
    sweepIntervalMs 120000 = 40000 ∧
    sweepIntervalMs 3000 = 5000 ∧
    sweepIntervalMs 600000 = 60000 ∧
    (∀ (now : Nat) (entries : List (String × Nat)) (k : String) (exp : Nat),
      (k, exp) ∈ sweep now entries ↔ ((k, exp) ∈ entries ∧ now < exp)) := by
  refine ⟨rfl, rfl, rfl, rfl, rfl, rfl, ?_⟩
  intro now entries k exp
  simp [sweep, List.mem_filter]

/-- C6: the qualifier returns true only when every criterion it computes
holds — the pool contains WSOL or SOL, contains the target token, has fees in
the quote token and a quote-only linear fee schedule; the Scenario B pool with
a low base fee (linear) qualifies and the same pool with a high base fee
(exponential) does not. -/
theorem pool_qualifier_all_criteria :
    (∀ (pool : PoolState) (t : String), meetsAllCriteria pool t = true →
      ((checkPoolCriteria pool t).hasWSOL = true ∨ (checkPoolCriteria pool t).hasSOL = true) ∧
      (checkPoolCriteria pool t).hasMigratedToken = true ∧
      (checkPoolCriteria pool t).feesInQuoteToken = true ∧
      (checkPoolCriteria pool t).hasLinearSchedule = true) ∧
    meetsAllCriteria scenarioLinearPool scenarioTokenT1 = true ∧
    meetsAllCriteria scenarioExponentialPool scenarioTokenT1 = false := by
  refine ⟨?_, by decide, by decide⟩
  intro pool t h
  simp only [meetsAllCriteria, Bool.and_eq_true, Bool.or_eq_true] at h
  exact ⟨h.1, h.2.1.1, h.2.1.2, h.2.2⟩

/-- C6 witness: the Scenario B linear pool satisfies each criterion. -/
theorem pool_qualifier_all_criteria_witness :
    (checkPoolCriteria scenarioLinearPool scenarioTokenT1).hasMigratedToken = true ∧
    (checkPoolCriteria scenarioLinearPool scenarioTokenT1).hasLinearSchedule = true := by
  have h := pool_qualifier_all_criteria.1 scenarioLinearPool scenarioTokenT1
    pool_qualifier_all_criteria.2.1
  exact ⟨h.2.1, h.2.2.2⟩

/-- C3 counterexample: a pool whose fee data is missing entirely is accepted by
the fee-schedule check (it yields true, not the claimed conservative false). -/
theorem feeScheduleCheck_missing_data_accepts :
    missingFeeDataPool.poolFees = none ∧
    checkQuoteTokenOnlyFees missingFeeDataPool = true ∧
    checkQuoteTokenOnlyFees missingFeeDataPool ≠ false := by
  refine ⟨rfl, rfl, ?_⟩
  decide

/-- C3 amended: the fee-schedule check yields false on an absent discriminant
(neither `collectFeeMode` nor the `feeSchedulerMode` fallback present) when
evaluation completes, and on an ambiguous heuristic fallback; but missing fee
data and a thrown evaluation both yield true (accept), not false. -/
theorem feeScheduleCheck_conservative_amended :
    (∀ pool : PoolState, pool.poolFees = none → checkQuoteTokenOnlyFees pool = true) ∧
    (∀ (pool : PoolState) (fees : PoolFees), pool.poolFees = some fees →
      fees.baseFee = none → checkQuoteTokenOnlyFees pool = true) ∧
    (∀ pool : PoolState, checkQuoteTokenOnlyFeesBody pool = Except.error () →
      checkQuoteTokenOnlyFees pool = true) ∧
    checkQuoteTokenOnlyFeesBody throwingPool = Except.error () ∧
    (∀ (pool : PoolState) (fees : PoolFees) (bf : BaseFee) (b : Bool),
      pool.poolFees = some fees → fees.baseFee = some bf →
      pool.collectFeeMode = none → bf.feeSchedulerMode = none →
      checkQuoteTokenOnlyFeesBody pool = Except.ok b → b = false) ∧
    (∀ (pool : PoolState) (fees : PoolFees) (bf : BaseFee) (rf cf : Int),
      pool.poolFees = some fees → fees.baseFee = some bf →
      pool.base_fee = none → bf.reductionFactor = some rf →
      bf.cliffFeeNumerator = some cf →
      ¬ (10 * rf < cf) → ¬ (1000 < rf) →
      checkQuoteTokenOnlyFees pool = false) := by
  refine ⟨?_, ?_, ?_, rfl, ?_, ?_⟩
  · intro pool h
    simp [checkQuoteTokenOnlyFees, checkQuoteTokenOnlyFeesBody, h]
  · intro pool fees h1 h2
    simp [checkQuoteTokenOnlyFees, checkQuoteTokenOnlyFeesBody, h1, h2]
  · intro pool h
    simp [checkQuoteTokenOnlyFees, h]
  · intro pool fees bf b h1 h2 h3 h4 hbody
    obtain ⟨tA, tB, pf, cfm, bfig⟩ := pool
    obtain ⟨bfo⟩ := fees
    simp only at h1 h2 h3
    subst h1 h2 h3
    obtain ⟨fsm, np, pfq, rfac, cfn⟩ := bf
    simp only at h4
    subst h4
    simp only [checkQuoteTokenOnlyFeesBody] at hbody
    split at hbody
    · exact absurd hbody (by simp)
    · simp only [Except.ok.injEq] at hbody
      subst hbody
      simp
  · intro pool fees bf rf cf h1 h2 h3 h4 h5 h6 h7
    obtain ⟨tA, tB, pf, cfm, bfig⟩ := pool
    obtain ⟨bfo⟩ := fees
    simp only at h1 h2 h3
    subst h1 h2 h3
    obtain ⟨fsm, np, pfq, rfac, cfn⟩ := bf
    simp only at h4 h5
    subst h4 h5
    simp only [checkQuoteTokenOnlyFees, checkQuoteTokenOnlyFeesBody]
    rw [if_neg h6, if_neg h7]
    cases np with
    | none => simp
    | some n =>
      by_cases hn : 0 < n
      · simp [hn]
      · simp [hn]

/-- C3 amended witness: the pool with no fee data is accepted, and the pool
with an ambiguous heuristic fallback is rejected. -/
theorem feeScheduleCheck_conservative_amended_witness :
    checkQuoteTokenOnlyFees missingFeeDataPool = true ∧
    checkQuoteTokenOnlyFees ambiguousHeuristicPool = false := by
  constructor
  · exact feeScheduleCheck_conservative_amended.1 missingFeeDataPool rfl
  · exact feeScheduleCheck_conservative_amended.2.2.2.2.2 ambiguousHeuristicPool
      { baseFee := some ambiguousHeuristicBaseFee } ambiguousHeuristicBaseFee 500 600
      rfl rfl rfl rfl rfl (by decide) (by decide)

/-- C5: re-adding a token before its first registration expires leaves exactly
one live candidate whose sole pending expiry timer is the second call's (firing
at the second call's `now + ttl`); the first call's timer was cancelled, so
firing it is a no-op and cannot remove the re-added token. -/
theorem registry_readd_resets_expiry :
    ∀ (t : String) (ttl1 ttl2 now1 now2 : Nat), now2 < now1 + ttl1 →
      (addToken (addToken initialTracker t ttl1 now1) t ttl2 now2).migratedTokens = [t] ∧
      (addToken (addToken initialTracker t ttl1 now1) t ttl2 now2).pendingTimers =
        [{ id := 1, token := t, fireAt := now2 + ttl2 }] ∧
      fireTimeout (addToken (addToken initialTracker t ttl1 now1) t ttl2 now2) 0 =
        addToken (addToken initialTracker t ttl1 now1) t ttl2 now2 ∧
      hasToken (fireTimeout (addToken (addToken initialTracker t ttl1 now1) t ttl2 now2) 0) t =
        true := by
  intro t ttl1 ttl2 now1 now2 _h
  have hstate : addToken (addToken initialTracker t ttl1 now1) t ttl2 now2 =
      { migratedTokens := [t]
        expirationTimeouts := [(t, 1)]
        pendingTimers := [{ id := 1, token := t, fireAt := now2 + ttl2 }]
        nextId := 2 } := by
    simp [addToken, clearExpirationTimeout, lookupTimeout, deleteTimeoutKey, setTimeoutKey,
      setAdd, initialTracker, List.filter]
  rw [hstate]
  refine ⟨rfl, rfl, ?_, ?_⟩
  · simp [fireTimeout, List.find?]
  · simp [fireTimeout, List.find?, hasToken]

/-- C5 witness: concrete double registration. -/
theorem registry_readd_resets_expiry_witness :
    (addToken (addToken initialTracker "tok" 420000 0) "tok" 420000 100).migratedTokens =
      ["tok"] ∧
    (addToken (addToken initialTracker "tok" 420000 0) "tok" 420000 100).pendingTimers =
      [{ id := 1, token := "tok", fireAt := 420100 }] := by
  have h := registry_readd_resets_expiry "tok" 420000 420000 0 100 (by omega)
  exact ⟨h.1, h.2.1⟩

/-- C2 counterexample: with the monitor started and one tick already in flight,
the interval firing again starts a second concurrent tick instead of skipping
it, so the in-flight count reaches 2. -/
theorem overlapping_ticks_counterexample :
    (loopRun [LoopEvent.timerFire, LoopEvent.timerFire] startedLoop).inFlight = 2 ∧
    ¬ (loopRun [LoopEvent.timerFire, LoopEvent.timerFire] startedLoop).inFlight ≤ 1 := by
  refine ⟨rfl, ?_⟩
  decide

/-- C2 amended: the interval callback guards only on `isRunning`, the
started/stopped flag — a stopped monitor starts no tick, while a running one
starts a new tick on every fire regardless of in-flight ticks. -/
theorem tick_guard_isRunning_amended :
    (∀ s : LoopState, s.isRunning = false → loopStep s LoopEvent.timerFire = s) ∧
    (∀ s : LoopState, s.isRunning = true →
      (loopStep s LoopEvent.timerFire).inFlight = s.inFlight + 1) := by
  constructor
  · intro s h
    simp [loopStep, h]
  · intro s h
    simp [loopStep, h]

/-- C2 amended witness: concrete stopped and running states. -/
theorem tick_guard_isRunning_amended_witness :
    loopStep { isRunning := false, inFlight := 0 } LoopEvent.timerFire =
      { isRunning := false, inFlight := 0 } ∧
    (loopStep startedLoop LoopEvent.timerFire).inFlight = 1 :=
  ⟨tick_guard_isRunning_amended.1 { isRunning := false, inFlight := 0 } rfl,
   tick_guard_isRunning_amended.2 startedLoop rfl⟩

/-- Helper: one scheduler step preserves the marking invariant. -/
theorem orchStep_preserves_inv (g : OrchGlobal) (p : Proc) (h : OrchInv g) :
    OrchInv (orchStep g p) := by
  obtain ⟨proc, seen, pur, pcA, pcB⟩ := g
  obtain ⟨h1, h2, h3⟩ := h
  simp only at h1 h2 h3
  cases p
  · cases proc <;> cases seen <;> cases pcA <;>
      simp_all [OrchInv, orchStep, orchSegment]
  · cases proc <;> cases seen <;> cases pcB <;>
      simp_all [OrchInv, orchStep, orchSegment]

/-- Helper: the marking invariant holds along every schedule. -/
theorem orchRun_preserves_inv :
    ∀ (sched : List Proc) (g : OrchGlobal), OrchInv g → OrchInv (orchRun sched g)
  | [], _, h => h
  | p :: rest, g, h => orchRun_preserves_inv rest (orchStep g p) (orchStep_preserves_inv g p h)

/-- C1 counterexample: two invocations for the same ActionKey, interleaved at
the await points between the processed-set guard and the marking (the pool
fetch and the criteria evaluation), both pass the guard and both execute the
purchase — two purchases, refuting at-most-once under concurrent invocation. -/
theorem double_purchase_counterexample :
    (orchRun [Proc.A, Proc.B, Proc.A, Proc.A, Proc.A, Proc.B, Proc.B, Proc.B]
      orchInit).purchases = 2 ∧
    ¬ (∀ sched : List Proc, (orchRun sched orchInit).purchases ≤ 1) := by
  have h2 : (orchRun [Proc.A, Proc.B, Proc.A, Proc.A, Proc.A, Proc.B, Proc.B, Proc.B]
      orchInit).purchases = 2 := rfl
  refine ⟨h2, fun hall => ?_⟩
  have := hall [Proc.A, Proc.B, Proc.A, Proc.A, Proc.A, Proc.B, Proc.B, Proc.B]
  rw [h2] at this
  omega

/-- C1 amended: the key is marked processed before the purchase is issued
(every state with a purchase counted has the key marked, on every schedule),
and a key already processed at guard time is skipped, so a second sequential
(non-overlapping) pass issues no second purchase; at-most-once is not
guaranteed for overlapping invocations. -/
theorem at_most_once_amended :
    (∀ sched : List Proc, 1 ≤ (orchRun sched orchInit).purchases →
      (orchRun sched orchInit).processed = true) ∧
    (∀ g : OrchGlobal, g.processed = true → g.pcB = OrchPc.start →
      orchStep g Proc.B = { g with pcB := OrchPc.skipped }) ∧
    (orchRun [Proc.A, Proc.A, Proc.A, Proc.A, Proc.B] orchInit).purchases = 1 ∧
    (orchRun [Proc.A, Proc.A, Proc.A, Proc.A, Proc.B] orchInit).pcB = OrchPc.skipped := by
  refine ⟨?_, ?_, rfl, rfl⟩
  · intro sched h
    have hinv : OrchInv orchInit := by
      refine ⟨?_, ?_, ?_⟩ <;> intro hx <;> simp [orchInit] at hx
    exact (orchRun_preserves_inv sched orchInit hinv).2.2 h
  · intro g h1 h2
    obtain ⟨proc, seen, pur, pcA, pcB⟩ := g
    simp only at h1 h2
    subst h1 h2
    simp [orchStep, orchSegment]

/-- C1 amended witness: a completed first invocation leaves the key marked, and
a second sequential invocation is skipped at its guard. -/
theorem at_most_once_amended_witness :
    (orchRun [Proc.A, Proc.A, Proc.A, Proc.A] orchInit).processed = true ∧
    orchStep
      { processed := true, seen := true, purchases := 1,
        pcA := OrchPc.done, pcB := OrchPc.start } Proc.B =
      { processed := true, seen := true, purchases := 1,
        pcA := OrchPc.done, pcB := OrchPc.skipped } := by
  constructor
  · exact at_most_once_amended.1 [Proc.A, Proc.A, Proc.A, Proc.A] (by decide)
  · exact at_most_once_amended.2.1
      { processed := true, seen := true, purchases := 1,
        pcA := OrchPc.done, pcB := OrchPc.start } rfl rfl

end DammBot
